import Mathlib

/-!
MenuAndCommandsPackage.h

A shallow embedding of the command handlers declared in `MenuAndCommandsPackage.h`
(the C++ Menu-and-Commands sample package): the `DynamicTextCommandHandler`
class, the three output callbacks, the command map, and the state they act on.

Conventions of the embedding
* `DWORD` values are naturals kept below `2 ^ 32`; `++` is `(· + 1) % 2 ^ 32`.
* `CStringW` is `String`; a `NULL` text is the empty string.
* `CStringW::LoadString(id)` reads the module's string table, which is passed to
  every call as a function `Resources`; `none` is the `FALSE` return.
* `VSL_CHECKBOOL_GLE(b)` throws when `b` is `FALSE`; a member function that may
  throw returns a `Completion` next to the state it leaves behind (members
  written before the throw stay written).
-/

namespace MenuAndCommands

/-! ## Windows and resource constants -/

/-- Flag `OLECMDF_SUPPORTED` of `docobj.h`. -/
def OLECMDF_SUPPORTED : Nat := 1
/-- Flag `OLECMDF_ENABLED` of `docobj.h`. -/
def OLECMDF_ENABLED : Nat := 2
/-- Flag `OLECMDF_INVISIBLE` of `docobj.h`. -/
def OLECMDF_INVISIBLE : Nat := 16

/-- Number of values of a `DWORD`. -/
def DWORD_RANGE : Nat := 2 ^ 32

/-- String-table identifiers used by the header (`Resource.h` of the package and of the
UI project). Only the names matter: their numeric values never reach the code below. -/
inductive ResourceId where
  | IDS_COMMAND_CALLBACK
  | IDS_GRAPH_CALLBACK
  | IDS_ZOOM_CALLBACK
  | IDS_COMMAND_TEXT_FORMAT
  | IDS_E_BADINSTALL
  deriving DecidableEq

/-- The string table seen by `CStringW::LoadString`: `none` when the load returns `FALSE`. -/
abbrev Resources := ResourceId → Option String

/-- Modelled from the spec: how a `void` member function that contains `VSL_CHECKBOOL_GLE`
(defined by the VSL, not in the header) ends. A failed load is "fatal to the callback" and
"aborting the current callback invocation": the check throws. -/
inductive Completion where
  | returned
  | threw
  deriving DecidableEq

/-! ## `CStringW::Format` -/

/-- One variadic argument of `CStringW::Format`. -/
inductive FormatArg where
  | str (s : String)
  | dword (d : Nat)
  deriving DecidableEq

/-- Text printed by `%d` for a 32-bit argument: the two's-complement reading of the `DWORD`. -/
def formatSigned (d : Nat) : String :=
  if d < 2 ^ 31 then toString d else "-" ++ toString (2 ^ 32 - d)

/-- Text printed by `%u` for a 32-bit argument. -/
def formatUnsigned (d : Nat) : String := toString d

/-- The `printf` directives `%s`, `%d`, `%u` and `%%`, consuming the arguments left to right;
every other character of the format string is copied (so is a directive that finds no
argument of its kind, which C leaves undefined). -/
def formatChars : List Char → List FormatArg → List Char
  | '%' :: 's' :: fmt, FormatArg.str s :: args => s.data ++ formatChars fmt args
  | '%' :: 'd' :: fmt, FormatArg.dword d :: args => (formatSigned d).data ++ formatChars fmt args
  | '%' :: 'u' :: fmt, FormatArg.dword d :: args => (formatUnsigned d).data ++ formatChars fmt args
  | '%' :: '%' :: fmt, args => '%' :: formatChars fmt args
  | c :: fmt, args => c :: formatChars fmt args
  | [], _ => []

/-- Method `CStringW::Format(strFormat, args...)`: the new value of the string. -/
def CStringW.Format (strFormat : String) (args : List FormatArg) : String :=
  ⟨formatChars strFormat.data args⟩

/-- Modelled from the spec: the text of the string resource `IDS_COMMAND_TEXT_FORMAT`, which
lives in the UI project's string table. The spec gives the rendered shape
`"{original} (Clicked {counter} times)"`, and the comment above `Exec` names the suffix
`"(Clicked %d times)"`. -/
def IDS_COMMAND_TEXT_FORMAT_text : String := "%s (Clicked %d times)"

/-- The label the spec writes as `format(original_text, n)`: the original text followed by
`" (Clicked n times)"`, for a mathematical `n`. -/
def specFormat (original_text : String) (n : Nat) : String :=
  original_text ++ " (Clicked " ++ toString n ++ " times)"

/-! ## `DynamicTextCommandHandler` -/

/-- The members of `DynamicTextCommandHandler`: `flags` and `text` are those of the
`CommandHandler` base (`text` is what `GetText()` returns). -/
structure DynamicTextCommandHandler where
  flags : Nat
  text : String
  m_dwClickCount : Nat
  m_strOriginalText : String
  deriving DecidableEq

/-- The constructor `DynamicTextCommandHandler(id, szText)`. -/
def DynamicTextCommandHandler.new (szText : String) : DynamicTextCommandHandler :=
  { flags := OLECMDF_SUPPORTED ||| OLECMDF_ENABLED
    text := szText
    m_dwClickCount := 0
    m_strOriginalText := szText }

/-- Method `DynamicTextCommandHandler::Exec`: the counter is incremented first, then the
format string is loaded (a failed load throws), then the label is formatted. -/
def DynamicTextCommandHandler.Exec (res : Resources) (h : DynamicTextCommandHandler) :
    Completion × DynamicTextCommandHandler :=
  let h1 := { h with m_dwClickCount := (h.m_dwClickCount + 1) % DWORD_RANGE }
  match res ResourceId.IDS_COMMAND_TEXT_FORMAT with
  | none => (Completion.threw, h1)
  | some strFormat =>
    let args := [FormatArg.str h1.m_strOriginalText, FormatArg.dword h1.m_dwClickCount]
    (Completion.returned, { h1 with text := CStringW.Format strFormat args })

/-- Method `DynamicTextCommandHandler::ResetClickCount`. -/
def DynamicTextCommandHandler.ResetClickCount (h : DynamicTextCommandHandler) :
    DynamicTextCommandHandler :=
  { h with m_dwClickCount := 0, text := h.m_strOriginalText }

/-- A call made on the handler: `Exec` under the string table of that moment, or
`ResetClickCount`. -/
inductive HandlerCall where
  | exec (res : Resources)
  | reset

/-- The handler after one call. -/
def HandlerCall.apply (c : HandlerCall) (h : DynamicTextCommandHandler) :
    DynamicTextCommandHandler :=
  match c with
  | HandlerCall.exec res => (DynamicTextCommandHandler.Exec res h).2
  | HandlerCall.reset => h.ResetClickCount

/-- The handler after a sequence of calls, first call first. -/
def runCalls (calls : List HandlerCall) (h : DynamicTextCommandHandler) :
    DynamicTextCommandHandler :=
  calls.foldl (fun acc c => c.apply acc) h

/-- The handler after `n` calls of `Exec`, all under the string table `res`. -/
def execTimes (res : Resources) (n : Nat) (h : DynamicTextCommandHandler) :
    DynamicTextCommandHandler :=
  runCalls (List.replicate n (HandlerCall.exec res)) h

/-- A string table in which every load succeeds; the format string is the one of the
sample, the three messages are placeholders. -/
def sampleResources : Resources := fun id =>
  match id with
  | ResourceId.IDS_COMMAND_CALLBACK => some "Sample Command Callback."
  | ResourceId.IDS_GRAPH_CALLBACK => some "Graph Command Callback."
  | ResourceId.IDS_ZOOM_CALLBACK => some "Zoom Command Callback."
  | ResourceId.IDS_COMMAND_TEXT_FORMAT => some IDS_COMMAND_TEXT_FORMAT_text
  | ResourceId.IDS_E_BADINSTALL => some "Bad installation."

/-- A string table in which every load fails. -/
def noResources : Resources := fun _ => none

/-! ## The package: command handlers, output pane, callbacks -/

/-- What `VsOutputWindowUtilities` has sent to the output pane: a bar of equals signs or a
message. The exact bar text belongs to the VSL and is not needed. -/
inductive OutputItem where
  | barOfEquals
  | message (s : String)
  deriving DecidableEq

/-- Modelled from the spec: the VSL method
`VsOutputWindowUtilities::OutputMessageWithPreAndPostBarsOfEquals`, which "accepts a string
and writes it framed by separator lines": the message between two bars, appended to the
pane. The callbacks discard whatever it returns. -/
def OutputMessageWithPreAndPostBarsOfEquals (pane : List OutputItem) (strMessage : String) :
    List OutputItem :=
  pane ++ [OutputItem.barOfEquals, OutputItem.message strMessage, OutputItem.barOfEquals]

/-- The members of a VSL `CommandHandler` that the header sets: status flags and text. -/
structure CommandHandler where
  flags : Nat
  text : String
  deriving DecidableEq

/-- The member functions passed to `CommandHandler::ExecHandler` in the command map. -/
inductive ExecHandler where
  | MenuCommandCallback
  | GraphCommandCallback
  | ZoomCommandCallback
  | MenuVisibilityCallback
  deriving DecidableEq

/-- What a command map entry binds its command to: a callback wrapped in
`CommandHandler::ExecHandler`, or (for `VSL_COMMAND_MAP_CLASS_ENTRY`) the class
`DynamicTextCommandHandler`. -/
inductive Binding where
  | callback (f : ExecHandler)
  | DynamicTextCommandHandler
  deriving DecidableEq

/-- The six entries between `VSL_BEGIN_COMMAND_MAP` and `VSL_END_VSCOMMAND_MAP`, in the order
of the source, named after their command identifiers. -/
inductive Entry where
  | cmdidMyCommand
  | cmdidMyGraph
  | cmdidMyZoom
  | cmdidDynVisibility1
  | cmdidDynVisibility2
  | cmdidDynamicTxt
  deriving DecidableEq

/-- The handler each entry of the command map declares. -/
def Entry.binding : Entry → Binding
  | Entry.cmdidMyCommand => Binding.callback ExecHandler.MenuCommandCallback
  | Entry.cmdidMyGraph => Binding.callback ExecHandler.GraphCommandCallback
  | Entry.cmdidMyZoom => Binding.callback ExecHandler.ZoomCommandCallback
  | Entry.cmdidDynVisibility1 => Binding.callback ExecHandler.MenuVisibilityCallback
  | Entry.cmdidDynVisibility2 => Binding.callback ExecHandler.MenuVisibilityCallback
  | Entry.cmdidDynamicTxt => Binding.DynamicTextCommandHandler

/-- The string resource a callback loads and writes to the output pane, if it does so. -/
def ExecHandler.resource : ExecHandler → Option ResourceId
  | ExecHandler.MenuCommandCallback => some ResourceId.IDS_COMMAND_CALLBACK
  | ExecHandler.GraphCommandCallback => some ResourceId.IDS_GRAPH_CALLBACK
  | ExecHandler.ZoomCommandCallback => some ResourceId.IDS_ZOOM_CALLBACK
  | ExecHandler.MenuVisibilityCallback => none

/-- The state of a `MenuAndCommandsPackage`: one handler object per command map entry and
the output pane behind `m_OutputWindow`. -/
structure MenuAndCommandsPackage where
  myCommand : CommandHandler
  myGraph : CommandHandler
  myZoom : CommandHandler
  dynVisibility1 : CommandHandler
  dynVisibility2 : CommandHandler
  dynamicTxt : DynamicTextCommandHandler
  m_OutputWindow : List OutputItem
  deriving DecidableEq

/-- Modelled from the spec: the status `VSL_COMMAND_MAP_ENTRY` (defined by the VSL, not in
the header) gives a command, the entry taking no flags: supported, enabled and visible
("Initial state: command 1 visible"). These are the flags the `DynamicTextCommandHandler`
constructor passes to its base, and the header sets the entry "with flags" apart as the one
made invisible. -/
def defaultFlags : Nat := OLECMDF_SUPPORTED ||| OLECMDF_ENABLED

/-- The package as the command map constructs it: four entries with the default flags and
no text, `cmdidDynVisibility2` with the flags written in its entry, and the dynamic-text
handler built from `L"C++ Text Changes"`. -/
def MenuAndCommandsPackage.new : MenuAndCommandsPackage :=
  { myCommand := { flags := defaultFlags, text := "" }
    myGraph := { flags := defaultFlags, text := "" }
    myZoom := { flags := defaultFlags, text := "" }
    dynVisibility1 := { flags := defaultFlags, text := "" }
    dynVisibility2 :=
      { flags := OLECMDF_SUPPORTED ||| OLECMDF_ENABLED ||| OLECMDF_INVISIBLE, text := "" }
    dynamicTxt := DynamicTextCommandHandler.new "C++ Text Changes"
    m_OutputWindow := [] }

/-- The status flags of the six commands, in command map order. -/
def MenuAndCommandsPackage.statusFlags (p : MenuAndCommandsPackage) : List Nat :=
  [p.myCommand.flags, p.myGraph.flags, p.myZoom.flags, p.dynVisibility1.flags,
    p.dynVisibility2.flags, p.dynamicTxt.flags]

/-- The status flags of one command. -/
def MenuAndCommandsPackage.flagsOf (p : MenuAndCommandsPackage) : Entry → Nat
  | Entry.cmdidMyCommand => p.myCommand.flags
  | Entry.cmdidMyGraph => p.myGraph.flags
  | Entry.cmdidMyZoom => p.myZoom.flags
  | Entry.cmdidDynVisibility1 => p.dynVisibility1.flags
  | Entry.cmdidDynVisibility2 => p.dynVisibility2.flags
  | Entry.cmdidDynamicTxt => p.dynamicTxt.flags

/-- A command is shown when `OLECMDF_INVISIBLE` is clear in its flags. -/
def isVisible (flags : Nat) : Bool := flags &&& OLECMDF_INVISIBLE == 0

/-- Method `MenuAndCommandsPackage::MenuCommandCallback`. -/
def MenuCommandCallback (res : Resources) (p : MenuAndCommandsPackage) :
    Completion × MenuAndCommandsPackage :=
  match res ResourceId.IDS_COMMAND_CALLBACK with
  | none => (Completion.threw, p)
  | some strMessage =>
    (Completion.returned,
      { p with m_OutputWindow :=
          OutputMessageWithPreAndPostBarsOfEquals p.m_OutputWindow strMessage })

/-- Method `MenuAndCommandsPackage::GraphCommandCallback`. -/
def GraphCommandCallback (res : Resources) (p : MenuAndCommandsPackage) :
    Completion × MenuAndCommandsPackage :=
  match res ResourceId.IDS_GRAPH_CALLBACK with
  | none => (Completion.threw, p)
  | some strMessage =>
    (Completion.returned,
      { p with m_OutputWindow :=
          OutputMessageWithPreAndPostBarsOfEquals p.m_OutputWindow strMessage })

/-- Method `MenuAndCommandsPackage::ZoomCommandCallback`. -/
def ZoomCommandCallback (res : Resources) (p : MenuAndCommandsPackage) :
    Completion × MenuAndCommandsPackage :=
  match res ResourceId.IDS_ZOOM_CALLBACK with
  | none => (Completion.threw, p)
  | some strMessage =>
    (Completion.returned,
      { p with m_OutputWindow :=
          OutputMessageWithPreAndPostBarsOfEquals p.m_OutputWindow strMessage })

/-- The two status bits the visibility callback inverts. -/
def visibleEnabledBits : Nat := OLECMDF_ENABLED ||| OLECMDF_INVISIBLE

/-- Modelled from the spec: the inversion of a command's "visible/enabled bit pair", which
exchanges `{visible, enabled}` and `{invisible, disabled}`. -/
def flipVisibleEnabled (flags : Nat) : Nat := flags ^^^ visibleEnabledBits

/-- Modelled from the spec: the body of `MenuAndCommandsPackage::MenuVisibilityCallback`,
which the header only declares. The spec has the callback shared by `cmdidDynVisibility1`
and `cmdidDynVisibility2`, says that it "flips the opposite command's visible/enabled bit
pair each time either is invoked", and that "each invocation flips both" commands, which
is what keeps exactly one of the two visible; it loads no resource and writes nothing.
`pSender` is the entry through which it was invoked. -/
def MenuVisibilityCallback (_pSender : Entry) (p : MenuAndCommandsPackage) :
    Completion × MenuAndCommandsPackage :=
  (Completion.returned,
    { p with
      dynVisibility1 := { p.dynVisibility1 with flags := flipVisibleEnabled p.dynVisibility1.flags }
      dynVisibility2 :=
        { p.dynVisibility2 with flags := flipVisibleEnabled p.dynVisibility2.flags } })

/-- The package after a sequence of invocations of `MenuVisibilityCallback`, each through
the entry listed. -/
def runVisibility (senders : List Entry) (p : MenuAndCommandsPackage) : MenuAndCommandsPackage :=
  senders.foldl (fun acc s => (MenuVisibilityCallback s acc).2) p

/-- The callback or handler method run when an entry of the command map is executed. -/
def Entry.exec (res : Resources) (e : Entry) (p : MenuAndCommandsPackage) :
    Completion × MenuAndCommandsPackage :=
  match e.binding with
  | Binding.callback ExecHandler.MenuCommandCallback => MenuCommandCallback res p
  | Binding.callback ExecHandler.GraphCommandCallback => GraphCommandCallback res p
  | Binding.callback ExecHandler.ZoomCommandCallback => ZoomCommandCallback res p
  | Binding.callback ExecHandler.MenuVisibilityCallback => MenuVisibilityCallback e p
  | Binding.DynamicTextCommandHandler =>
    let r := p.dynamicTxt.Exec res
    (r.1, { p with dynamicTxt := r.2 })

/-! ## Command identifiers and dispatch -/

/-- A command identifier: the GUID of its command set and a `DWORD`. -/
structure CommandId where
  guid : Nat
  id : Nat
  deriving DecidableEq

/-- The constants of `Guids.h` and `CommandIds.h` that the command map names; their values
are parameters of the embedding. -/
structure CommandIds where
  CLSID_MenuAndCommandsCmdSet : Nat
  cmdidMyCommand : Nat
  cmdidMyGraph : Nat
  cmdidMyZoom : Nat
  cmdidDynVisibility1 : Nat
  cmdidDynVisibility2 : Nat
  cmdidDynamicTxt : Nat
  deriving DecidableEq

/-- The six command numbers, in command map order. -/
def CommandIds.numbers (k : CommandIds) : List Nat :=
  [k.cmdidMyCommand, k.cmdidMyGraph, k.cmdidMyZoom, k.cmdidDynVisibility1,
    k.cmdidDynVisibility2, k.cmdidDynamicTxt]

/-- The six command numbers are pairwise different, as identifiers of different commands of
one command set are. -/
def CommandIds.Distinct (k : CommandIds) : Prop := k.numbers.Nodup

instance (k : CommandIds) : Decidable k.Distinct := by
  unfold CommandIds.Distinct; infer_instance

/-- A choice of constants used to instantiate the parameters; only their being distinct
matters. -/
def exampleIds : CommandIds :=
  { CLSID_MenuAndCommandsCmdSet := 1
    cmdidMyCommand := 1
    cmdidMyGraph := 2
    cmdidMyZoom := 3
    cmdidDynVisibility1 := 4
    cmdidDynVisibility2 := 5
    cmdidDynamicTxt := 6 }

/-- The command map: identifier and entry, in the order of the source. -/
def commandMap (k : CommandIds) : List (CommandId × Entry) :=
  [ ({ guid := k.CLSID_MenuAndCommandsCmdSet, id := k.cmdidMyCommand }, Entry.cmdidMyCommand),
    ({ guid := k.CLSID_MenuAndCommandsCmdSet, id := k.cmdidMyGraph }, Entry.cmdidMyGraph),
    ({ guid := k.CLSID_MenuAndCommandsCmdSet, id := k.cmdidMyZoom }, Entry.cmdidMyZoom),
    ({ guid := k.CLSID_MenuAndCommandsCmdSet, id := k.cmdidDynVisibility1 },
      Entry.cmdidDynVisibility1),
    ({ guid := k.CLSID_MenuAndCommandsCmdSet, id := k.cmdidDynVisibility2 },
      Entry.cmdidDynVisibility2),
    ({ guid := k.CLSID_MenuAndCommandsCmdSet, id := k.cmdidDynamicTxt }, Entry.cmdidDynamicTxt) ]

/-- The identifiers that have an entry in the command map. -/
def registeredIds (k : CommandIds) : List CommandId := (commandMap k).map Prod.fst

/-- The result codes of the dispatch interface. -/
inductive HRESULT where
  | S_OK
  | OLECMDERR_E_NOTSUPPORTED
  | loadFailure
  deriving DecidableEq

/-- Modelled from the spec: the lookup `IOleCommandTargetImpl` makes in the command map
(VSL code, not in the header): the entry registered for the identifier, if any. -/
def findCommand (k : CommandIds) (cid : CommandId) : Option Entry :=
  (commandMap k).lookup cid

/-- Modelled from the spec: the dispatch operation `Execute(commandId, arguments)` of
`IOleCommandTargetImpl` (VSL code, not in the header): "dispatched to the matching
registered callback; unknown ids signal not supported to the caller"; an exception of the
callback reaches the host as an error. -/
def MenuAndCommandsPackage.Exec (k : CommandIds) (res : Resources) (cid : CommandId)
    (p : MenuAndCommandsPackage) : HRESULT × MenuAndCommandsPackage :=
  match findCommand k cid with
  | none => (HRESULT.OLECMDERR_E_NOTSUPPORTED, p)
  | some e =>
    match e.exec res p with
    | (Completion.returned, p1) => (HRESULT.S_OK, p1)
    | (Completion.threw, p1) => (HRESULT.loadFailure, p1)

/-- Modelled from the spec: the dispatch operation `QueryStatus(commandId) -> flags` of
`IOleCommandTargetImpl` (VSL code, not in the header): the current flags of a registered
command, "not supported" for any other identifier. The package is not changed. -/
def MenuAndCommandsPackage.QueryStatus (k : CommandIds) (cid : CommandId)
    (p : MenuAndCommandsPackage) : HRESULT × Option Nat :=
  match findCommand k cid with
  | none => (HRESULT.OLECMDERR_E_NOTSUPPORTED, none)
  | some e => (HRESULT.S_OK, some (p.flagsOf e))

/-- Whether executing the entry runs a callback that loads a fixed string resource and
writes it to the output pane. -/
def Entry.writesResourceString (e : Entry) : Bool :=
  match e.binding with
  | Binding.callback f => f.resource.isSome
  | Binding.DynamicTextCommandHandler => false

/-- The command map entries of a given binding. -/
def entriesBoundTo (k : CommandIds) (b : Binding) : List (CommandId × Entry) :=
  (commandMap k).filter (fun x => x.2.binding = b)

/-- The command map entries whose callback writes a fixed resource string. -/
def staticTextEntries (k : CommandIds) : List (CommandId × Entry) :=
  (commandMap k).filter (fun x => x.2.writesResourceString)

/-! ## Lemmas on `CStringW::Format` and the handler -/

/-- The sample's format string puts the original text first and the `%d` rendering of the
counter between `" (Clicked "` and `" times)"`. -/
theorem Format_clicked (o : String) (d : Nat) :
    CStringW.Format IDS_COMMAND_TEXT_FORMAT_text [FormatArg.str o, FormatArg.dword d]
      = o ++ " (Clicked " ++ formatSigned d ++ " times)" := by
  apply String.ext
  simp [CStringW.Format, IDS_COMMAND_TEXT_FORMAT_text, formatChars]

/-- Below `2 ^ 31` the `%d` rendering is the decimal numeral, so the formatted label is the
one the spec writes. -/
theorem Format_clicked_small (o : String) (d : Nat) (hd : d < 2 ^ 31) :
    CStringW.Format IDS_COMMAND_TEXT_FORMAT_text [FormatArg.str o, FormatArg.dword d]
      = specFormat o d := by
  rw [Format_clicked, specFormat, formatSigned, if_pos hd]

theorem Exec_count (res : Resources) (h : DynamicTextCommandHandler) :
    (h.Exec res).2.m_dwClickCount = (h.m_dwClickCount + 1) % DWORD_RANGE := by
  unfold DynamicTextCommandHandler.Exec
  cases res ResourceId.IDS_COMMAND_TEXT_FORMAT <;> rfl

theorem Exec_original (res : Resources) (h : DynamicTextCommandHandler) :
    (h.Exec res).2.m_strOriginalText = h.m_strOriginalText := by
  unfold DynamicTextCommandHandler.Exec
  cases res ResourceId.IDS_COMMAND_TEXT_FORMAT <;> rfl

theorem Exec_flags (res : Resources) (h : DynamicTextCommandHandler) :
    (h.Exec res).2.flags = h.flags := by
  unfold DynamicTextCommandHandler.Exec
  cases res ResourceId.IDS_COMMAND_TEXT_FORMAT <;> rfl

theorem Exec_loaded (res : Resources) (h : DynamicTextCommandHandler) (strFormat : String)
    (hres : res ResourceId.IDS_COMMAND_TEXT_FORMAT = some strFormat) :
    h.Exec res = (Completion.returned,
      { h with
        m_dwClickCount := (h.m_dwClickCount + 1) % DWORD_RANGE
        text := CStringW.Format strFormat [FormatArg.str h.m_strOriginalText,
          FormatArg.dword ((h.m_dwClickCount + 1) % DWORD_RANGE)] }) := by
  unfold DynamicTextCommandHandler.Exec
  rw [hres]

theorem Exec_not_loaded (res : Resources) (h : DynamicTextCommandHandler)
    (hres : res ResourceId.IDS_COMMAND_TEXT_FORMAT = none) :
    h.Exec res = (Completion.threw,
      { h with m_dwClickCount := (h.m_dwClickCount + 1) % DWORD_RANGE }) := by
  unfold DynamicTextCommandHandler.Exec
  rw [hres]

theorem runCalls_nil (h : DynamicTextCommandHandler) : runCalls [] h = h := rfl

theorem runCalls_concat (calls : List HandlerCall) (c : HandlerCall)
    (h : DynamicTextCommandHandler) :
    runCalls (calls ++ [c]) h = c.apply (runCalls calls h) := by
  simp [runCalls, List.foldl_append]

theorem execTimes_zero (res : Resources) (h : DynamicTextCommandHandler) :
    execTimes res 0 h = h := rfl

theorem execTimes_succ (res : Resources) (n : Nat) (h : DynamicTextCommandHandler) :
    execTimes res (n + 1) h = ((execTimes res n h).Exec res).2 := by
  unfold execTimes
  rw [List.replicate_succ', runCalls_concat]
  rfl

theorem apply_original (c : HandlerCall) (h : DynamicTextCommandHandler) :
    (c.apply h).m_strOriginalText = h.m_strOriginalText := by
  cases c with
  | exec res => exact Exec_original res h
  | reset => rfl

theorem runCalls_original (calls : List HandlerCall) (h : DynamicTextCommandHandler) :
    (runCalls calls h).m_strOriginalText = h.m_strOriginalText := by
  induction calls using List.reverseRecOn with
  | nil => rfl
  | append_singleton cs c ih => rw [runCalls_concat, apply_original, ih]

theorem execTimes_original (res : Resources) (n : Nat) (h : DynamicTextCommandHandler) :
    (execTimes res n h).m_strOriginalText = h.m_strOriginalText :=
  runCalls_original _ h

/-- The counter after `n` calls of `Exec` on a handler whose counter is a `DWORD`. -/
theorem execTimes_count (res : Resources) (n : Nat) (h : DynamicTextCommandHandler)
    (hc : h.m_dwClickCount < DWORD_RANGE) :
    (execTimes res n h).m_dwClickCount = (h.m_dwClickCount + n) % DWORD_RANGE := by
  induction n with
  | zero => simp [execTimes_zero, Nat.mod_eq_of_lt hc]
  | succ n ih =>
    rw [execTimes_succ, Exec_count, ih, Nat.mod_add_mod, Nat.add_assoc]

/-- The label after `n ≥ 1` calls of `Exec` whose load gave `strFormat`. -/
theorem execTimes_text (res : Resources) (strFormat : String) (n : Nat)
    (h : DynamicTextCommandHandler) (hc : h.m_dwClickCount < DWORD_RANGE)
    (hres : res ResourceId.IDS_COMMAND_TEXT_FORMAT = some strFormat) (hn : 1 ≤ n) :
    (execTimes res n h).text = CStringW.Format strFormat
      [FormatArg.str h.m_strOriginalText,
        FormatArg.dword ((h.m_dwClickCount + n) % DWORD_RANGE)] := by
  obtain ⟨m, rfl⟩ : ∃ m, n = m + 1 := ⟨n - 1, by omega⟩
  rw [execTimes_succ, Exec_loaded res _ strFormat hres]
  simp only [execTimes_original, execTimes_count res m h hc, Nat.mod_add_mod, Nat.add_assoc]

/-- Two handlers with the same label, counter and original text (their flags may differ)
have the same label, counter and original text after any call. -/
theorem apply_congr (c : HandlerCall) (h1 h2 : DynamicTextCommandHandler)
    (ht : h1.text = h2.text) (hc : h1.m_dwClickCount = h2.m_dwClickCount)
    (ho : h1.m_strOriginalText = h2.m_strOriginalText) :
    (c.apply h1).text = (c.apply h2).text ∧
      (c.apply h1).m_dwClickCount = (c.apply h2).m_dwClickCount ∧
      (c.apply h1).m_strOriginalText = (c.apply h2).m_strOriginalText := by
  cases c with
  | exec res =>
    simp only [HandlerCall.apply, DynamicTextCommandHandler.Exec]
    cases res ResourceId.IDS_COMMAND_TEXT_FORMAT <;> simp [ht, hc, ho]
  | reset => simp [HandlerCall.apply, DynamicTextCommandHandler.ResetClickCount, ho]

theorem runCalls_congr (calls : List HandlerCall) (h1 h2 : DynamicTextCommandHandler)
    (ht : h1.text = h2.text) (hc : h1.m_dwClickCount = h2.m_dwClickCount)
    (ho : h1.m_strOriginalText = h2.m_strOriginalText) :
    (runCalls calls h1).text = (runCalls calls h2).text ∧
      (runCalls calls h1).m_dwClickCount = (runCalls calls h2).m_dwClickCount ∧
      (runCalls calls h1).m_strOriginalText = (runCalls calls h2).m_strOriginalText := by
  induction calls using List.reverseRecOn with
  | nil => exact ⟨ht, hc, ho⟩
  | append_singleton cs c ih =>
    rw [runCalls_concat, runCalls_concat]
    exact apply_congr c _ _ ih.1 ih.2.1 ih.2.2

/-- The counter is a `DWORD` in every state reached from a handler whose counter is one. -/
theorem runCalls_count_lt (calls : List HandlerCall) (h : DynamicTextCommandHandler)
    (hc : h.m_dwClickCount < DWORD_RANGE) :
    (runCalls calls h).m_dwClickCount < DWORD_RANGE := by
  induction calls using List.reverseRecOn with
  | nil => exact hc
  | append_singleton cs c ih =>
    rw [runCalls_concat]
    cases c with
    | exec res =>
      show ((runCalls cs h).Exec res).2.m_dwClickCount < DWORD_RANGE
      rw [Exec_count]
      exact Nat.mod_lt _ (by decide)
    | reset => exact (by decide : 0 < DWORD_RANGE)

/-- The counter after a sequence of `Exec` calls, whatever their loads gave. -/
theorem runExecs_count (rs : List Resources) (h : DynamicTextCommandHandler)
    (hc : h.m_dwClickCount < DWORD_RANGE) :
    (runCalls (rs.map HandlerCall.exec) h).m_dwClickCount
      = (h.m_dwClickCount + rs.length) % DWORD_RANGE := by
  induction rs using List.reverseRecOn with
  | nil => simp [runCalls_nil, Nat.mod_eq_of_lt hc]
  | append_singleton rs r ih =>
    rw [List.map_append, List.map_singleton, runCalls_concat]
    show ((runCalls (rs.map HandlerCall.exec) h).Exec r).2.m_dwClickCount = _
    rw [Exec_count, ih, Nat.mod_add_mod, List.length_append, List.length_singleton,
      Nat.add_assoc]

/-! ## The dynamic-text command -/

/-- C1, as the code has it: for every `n ≥ 1` and every original text, after `n` calls of
`Exec` on a freshly constructed handler, each loading the format string
`"%s (Clicked %d times)"`, the counter is `n mod 2 ^ 32` and the label is that format
applied to the original text and `n mod 2 ^ 32`; for `n < 2 ^ 31` the label is the original
text followed by `" (Clicked n times)"`. -/
theorem C1_label_after_n_clicks (res : Resources) (original_text : String) (n : Nat)
    (hn : 1 ≤ n)
    (hres : res ResourceId.IDS_COMMAND_TEXT_FORMAT = some IDS_COMMAND_TEXT_FORMAT_text) :
    (execTimes res n (DynamicTextCommandHandler.new original_text)).m_dwClickCount
        = n % 2 ^ 32 ∧
      (execTimes res n (DynamicTextCommandHandler.new original_text)).text
        = CStringW.Format IDS_COMMAND_TEXT_FORMAT_text
            [FormatArg.str original_text, FormatArg.dword (n % 2 ^ 32)] ∧
      (n < 2 ^ 31 →
        (execTimes res n (DynamicTextCommandHandler.new original_text)).text
          = specFormat original_text n) := by
  have hc : (DynamicTextCommandHandler.new original_text).m_dwClickCount < DWORD_RANGE :=
    (by decide : 0 < DWORD_RANGE)
  have hcount : (execTimes res n (DynamicTextCommandHandler.new original_text)).m_dwClickCount
      = (0 + n) % 2 ^ 32 := execTimes_count res n _ hc
  have htext : (execTimes res n (DynamicTextCommandHandler.new original_text)).text
      = CStringW.Format IDS_COMMAND_TEXT_FORMAT_text
          [FormatArg.str original_text, FormatArg.dword ((0 + n) % 2 ^ 32)] :=
    execTimes_text res _ n _ hc hres hn
  rw [Nat.zero_add] at hcount htext
  refine ⟨hcount, htext, fun hlt => ?_⟩
  rw [htext, Nat.mod_eq_of_lt (by omega)]
  exact Format_clicked_small original_text n hlt

/-- Three clicks on the sample's command give `"C++ Text Changes (Clicked 3 times)"`. -/
theorem C1_label_after_n_clicks_witness :
    (execTimes sampleResources 3
        (DynamicTextCommandHandler.new "C++ Text Changes")).m_dwClickCount = 3 % 2 ^ 32 ∧
      (execTimes sampleResources 3 (DynamicTextCommandHandler.new "C++ Text Changes")).text
        = CStringW.Format IDS_COMMAND_TEXT_FORMAT_text
            [FormatArg.str "C++ Text Changes", FormatArg.dword (3 % 2 ^ 32)] ∧
      (3 < 2 ^ 31 →
        (execTimes sampleResources 3 (DynamicTextCommandHandler.new "C++ Text Changes")).text
          = specFormat "C++ Text Changes" 3) :=
  C1_label_after_n_clicks sampleResources "C++ Text Changes" 3 (by decide) rfl

/-- C1 fails at `n = 2 ^ 32`: every load succeeds, yet after `2 ^ 32` calls the `DWORD`
counter is back at 0 and the label reads `"(Clicked 0 times)"`, not
`"(Clicked 4294967296 times)"`. -/
theorem C1_counterexample :
    sampleResources ResourceId.IDS_COMMAND_TEXT_FORMAT = some "%s (Clicked %d times)" ∧
      (execTimes sampleResources (2 ^ 32)
        (DynamicTextCommandHandler.new "C++ Text Changes")).m_dwClickCount = 0 ∧
      (execTimes sampleResources (2 ^ 32) (DynamicTextCommandHandler.new "C++ Text Changes")).text
        = "C++ Text Changes (Clicked 0 times)" ∧
      specFormat "C++ Text Changes" (2 ^ 32) = "C++ Text Changes (Clicked 4294967296 times)" ∧
      (execTimes sampleResources (2 ^ 32) (DynamicTextCommandHandler.new "C++ Text Changes")).text
        ≠ specFormat "C++ Text Changes" (2 ^ 32) := by
  have hc : (DynamicTextCommandHandler.new "C++ Text Changes").m_dwClickCount < DWORD_RANGE :=
    (by decide : 0 < DWORD_RANGE)
  have hcount := execTimes_count sampleResources (2 ^ 32) _ hc
  have htext := execTimes_text sampleResources IDS_COMMAND_TEXT_FORMAT_text (2 ^ 32) _ hc rfl
    (by decide)
  refine ⟨rfl, ?_, ?_, by decide, ?_⟩
  · rw [hcount]; decide
  · rw [htext]; decide
  · rw [htext]; decide

/-- C2, as the code has it: in every state reached from construction by `Exec` and
`ResetClickCount` calls the original text is the constructor's and the counter is a
`DWORD`; the displayed text is the original text alone, with counter 0, after construction
and after every `ResetClickCount`; and after every `Exec` whose load succeeded it is the
loaded format applied to the original text and the current counter, which for the sample's
format string and a counter below `2 ^ 31` is `"{original} (Clicked {counter} times)"`. -/
theorem C2_displayed_text (original_text : String) :
    (∀ calls : List HandlerCall,
      (runCalls calls (DynamicTextCommandHandler.new original_text)).m_strOriginalText
          = original_text ∧
        (runCalls calls (DynamicTextCommandHandler.new original_text)).m_dwClickCount
          < 2 ^ 32) ∧
    ((runCalls [] (DynamicTextCommandHandler.new original_text)).text = original_text ∧
      (runCalls [] (DynamicTextCommandHandler.new original_text)).m_dwClickCount = 0) ∧
    (∀ calls : List HandlerCall,
      (runCalls (calls ++ [HandlerCall.reset])
          (DynamicTextCommandHandler.new original_text)).text = original_text ∧
        (runCalls (calls ++ [HandlerCall.reset])
          (DynamicTextCommandHandler.new original_text)).m_dwClickCount = 0) ∧
    (∀ (calls : List HandlerCall) (res : Resources) (strFormat : String),
      res ResourceId.IDS_COMMAND_TEXT_FORMAT = some strFormat →
      (runCalls (calls ++ [HandlerCall.exec res])
          (DynamicTextCommandHandler.new original_text)).text
        = CStringW.Format strFormat [FormatArg.str original_text,
            FormatArg.dword (runCalls (calls ++ [HandlerCall.exec res])
              (DynamicTextCommandHandler.new original_text)).m_dwClickCount]) ∧
    (∀ (calls : List HandlerCall) (res : Resources),
      res ResourceId.IDS_COMMAND_TEXT_FORMAT = some IDS_COMMAND_TEXT_FORMAT_text →
      (runCalls (calls ++ [HandlerCall.exec res])
          (DynamicTextCommandHandler.new original_text)).m_dwClickCount < 2 ^ 31 →
      (runCalls (calls ++ [HandlerCall.exec res])
          (DynamicTextCommandHandler.new original_text)).text
        = specFormat original_text
            (runCalls (calls ++ [HandlerCall.exec res])
              (DynamicTextCommandHandler.new original_text)).m_dwClickCount) := by
  have hfmt : ∀ (calls : List HandlerCall) (res : Resources) (strFormat : String),
      res ResourceId.IDS_COMMAND_TEXT_FORMAT = some strFormat →
      (runCalls (calls ++ [HandlerCall.exec res])
          (DynamicTextCommandHandler.new original_text)).text
        = CStringW.Format strFormat [FormatArg.str original_text,
            FormatArg.dword (runCalls (calls ++ [HandlerCall.exec res])
              (DynamicTextCommandHandler.new original_text)).m_dwClickCount] := by
    intro calls res strFormat hres
    have ho := runCalls_original calls (DynamicTextCommandHandler.new original_text)
    rw [runCalls_concat]
    show (DynamicTextCommandHandler.Exec res _).2.text
      = CStringW.Format strFormat [FormatArg.str original_text,
          FormatArg.dword (DynamicTextCommandHandler.Exec res _).2.m_dwClickCount]
    rw [Exec_loaded res _ strFormat hres]
    show CStringW.Format strFormat [FormatArg.str _, _] = _
    rw [ho]
    rfl
  refine ⟨fun calls => ⟨?_, ?_⟩, ⟨rfl, rfl⟩, fun calls => ?_, hfmt, ?_⟩
  · exact runCalls_original calls _
  · exact runCalls_count_lt calls _ (by decide : 0 < DWORD_RANGE)
  · rw [runCalls_concat]
    exact ⟨runCalls_original calls _, rfl⟩
  · intro calls res hres hlt
    rw [hfmt calls res _ hres]
    exact Format_clicked_small _ _ hlt

/-- A click, a reset and a click again show `"C++ Text Changes (Clicked 1 times)"`. -/
theorem C2_displayed_text_witness :
    (runCalls ([HandlerCall.exec sampleResources, HandlerCall.reset]
        ++ [HandlerCall.exec sampleResources])
        (DynamicTextCommandHandler.new "C++ Text Changes")).text
      = specFormat "C++ Text Changes"
          (runCalls ([HandlerCall.exec sampleResources, HandlerCall.reset]
            ++ [HandlerCall.exec sampleResources])
            (DynamicTextCommandHandler.new "C++ Text Changes")).m_dwClickCount :=
  (C2_displayed_text "C++ Text Changes").2.2.2.2
    [HandlerCall.exec sampleResources, HandlerCall.reset] sampleResources rfl (by decide)

/-- C2 fails in the state right after construction: the counter is 0 and the displayed text
is `"C++ Text Changes"`, not `"C++ Text Changes (Clicked 0 times)"`. -/
theorem C2_counterexample :
    (runCalls [] (DynamicTextCommandHandler.new "C++ Text Changes")).text
        = "C++ Text Changes" ∧
      (runCalls [] (DynamicTextCommandHandler.new "C++ Text Changes")).m_dwClickCount = 0 ∧
      specFormat
          (runCalls [] (DynamicTextCommandHandler.new "C++ Text Changes")).m_strOriginalText
          (runCalls [] (DynamicTextCommandHandler.new "C++ Text Changes")).m_dwClickCount
        = "C++ Text Changes (Clicked 0 times)" ∧
      (runCalls [] (DynamicTextCommandHandler.new "C++ Text Changes")).text
        ≠ specFormat
          (runCalls [] (DynamicTextCommandHandler.new "C++ Text Changes")).m_strOriginalText
          (runCalls [] (DynamicTextCommandHandler.new "C++ Text Changes")).m_dwClickCount := by
  decide

/-- C3: in every state of the handler, `ResetClickCount` sets the counter to 0 and the
label to the original text and leaves the original text (and the flags) as they were; and
`n` calls of `Exec` after the reset give the same label, counter and original text as `n`
calls of `Exec` on a handler freshly constructed from that original text. -/
theorem C3_reset_restores (h : DynamicTextCommandHandler) (res : Resources) (n : Nat) :
    h.ResetClickCount.m_dwClickCount = 0 ∧
      h.ResetClickCount.text = h.m_strOriginalText ∧
      h.ResetClickCount.m_strOriginalText = h.m_strOriginalText ∧
      h.ResetClickCount.flags = h.flags ∧
      (execTimes res n h.ResetClickCount).text
        = (execTimes res n (DynamicTextCommandHandler.new h.m_strOriginalText)).text ∧
      (execTimes res n h.ResetClickCount).m_dwClickCount
        = (execTimes res n
            (DynamicTextCommandHandler.new h.m_strOriginalText)).m_dwClickCount ∧
      (execTimes res n h.ResetClickCount).m_strOriginalText
        = (execTimes res n
            (DynamicTextCommandHandler.new h.m_strOriginalText)).m_strOriginalText :=
  ⟨rfl, rfl, rfl, rfl,
    runCalls_congr _ h.ResetClickCount (DynamicTextCommandHandler.new h.m_strOriginalText)
      rfl rfl rfl⟩

/-- C10, as the code has it: `Exec` increments the counter before it loads the format
string, so a call whose load fails throws with the label, the original text and the flags
as they were and the counter one higher (modulo `2 ^ 32`); a later call whose load succeeds
therefore shows the number of all calls of `Exec` since construction, failed ones
included. -/
theorem C10_failed_exec_counts (h : DynamicTextCommandHandler) (res : Resources)
    (original_text : String) (rs : List Resources) (res1 : Resources) (strFormat : String)
    (hres : res ResourceId.IDS_COMMAND_TEXT_FORMAT = none)
    (hres1 : res1 ResourceId.IDS_COMMAND_TEXT_FORMAT = some strFormat) :
    ((h.Exec res).1 = Completion.threw ∧
      (h.Exec res).2.text = h.text ∧
      (h.Exec res).2.m_strOriginalText = h.m_strOriginalText ∧
      (h.Exec res).2.flags = h.flags ∧
      (h.Exec res).2.m_dwClickCount = (h.m_dwClickCount + 1) % 2 ^ 32) ∧
    ((runCalls (rs.map HandlerCall.exec)
        (DynamicTextCommandHandler.new original_text)).Exec res1).2.text
      = CStringW.Format strFormat
          [FormatArg.str original_text, FormatArg.dword ((rs.length + 1) % 2 ^ 32)] := by
  constructor
  · rw [Exec_not_loaded res h hres]
    exact ⟨rfl, rfl, rfl, rfl, rfl⟩
  · have hc : (DynamicTextCommandHandler.new original_text).m_dwClickCount < DWORD_RANGE :=
      (by decide : 0 < DWORD_RANGE)
    have hcount : (runCalls (rs.map HandlerCall.exec)
        (DynamicTextCommandHandler.new original_text)).m_dwClickCount
          = (0 + rs.length) % DWORD_RANGE := runExecs_count rs _ hc
    rw [Exec_loaded res1 _ strFormat hres1]
    show CStringW.Format strFormat [FormatArg.str _, FormatArg.dword _] = _
    rw [runCalls_original, hcount, Nat.zero_add, Nat.mod_add_mod]
    rfl

/-- A failed click between two loads that succeed: the label then reads
`"(Clicked 2 times)"`. -/
theorem C10_failed_exec_counts_witness :
    (((DynamicTextCommandHandler.new "C++ Text Changes").Exec noResources).1
        = Completion.threw ∧
      ((DynamicTextCommandHandler.new "C++ Text Changes").Exec noResources).2.text
        = (DynamicTextCommandHandler.new "C++ Text Changes").text ∧
      ((DynamicTextCommandHandler.new "C++ Text Changes").Exec noResources).2.m_strOriginalText
        = (DynamicTextCommandHandler.new "C++ Text Changes").m_strOriginalText ∧
      ((DynamicTextCommandHandler.new "C++ Text Changes").Exec noResources).2.flags
        = (DynamicTextCommandHandler.new "C++ Text Changes").flags ∧
      ((DynamicTextCommandHandler.new "C++ Text Changes").Exec noResources).2.m_dwClickCount
        = ((DynamicTextCommandHandler.new "C++ Text Changes").m_dwClickCount + 1) % 2 ^ 32) ∧
    ((runCalls ([noResources].map HandlerCall.exec)
        (DynamicTextCommandHandler.new "C++ Text Changes")).Exec sampleResources).2.text
      = CStringW.Format IDS_COMMAND_TEXT_FORMAT_text
          [FormatArg.str "C++ Text Changes",
            FormatArg.dword (([noResources] : List Resources).length + 1)] :=
  C10_failed_exec_counts (DynamicTextCommandHandler.new "C++ Text Changes") noResources
    "C++ Text Changes" [noResources] sampleResources IDS_COMMAND_TEXT_FORMAT_text rfl rfl

/-- C10 fails on a fresh handler: after an `Exec` whose load fails the counter is 1, not 0,
so the state is not the one before the call, and the next `Exec`, the only successful one,
shows `"(Clicked 2 times)"`. -/
theorem C10_counterexample :
    noResources ResourceId.IDS_COMMAND_TEXT_FORMAT = none ∧
      (DynamicTextCommandHandler.new "C++ Text Changes").m_dwClickCount = 0 ∧
      ((DynamicTextCommandHandler.new "C++ Text Changes").Exec noResources).2.m_dwClickCount
        = 1 ∧
      ((DynamicTextCommandHandler.new "C++ Text Changes").Exec noResources).2
        ≠ DynamicTextCommandHandler.new "C++ Text Changes" ∧
      ((((DynamicTextCommandHandler.new "C++ Text Changes").Exec noResources).2.Exec
          sampleResources).1 = Completion.returned ∧
        (((DynamicTextCommandHandler.new "C++ Text Changes").Exec noResources).2.Exec
          sampleResources).2.text = "C++ Text Changes (Clicked 2 times)") := by
  decide

/-! ## The output callbacks -/

/-- C8: each of `MenuCommandCallback`, `GraphCommandCallback`, `ZoomCommandCallback` and
`DynamicTextCommandHandler::Exec` ends in an error exactly when its resource load fails;
when the load fails, the three callbacks leave the package as it was (nothing is written to
the output), and `Exec`, alone or run through its command map entry, leaves the label and
the output as they were. -/
theorem C8_error_iff_load_fails (res : Resources) (p : MenuAndCommandsPackage)
    (h : DynamicTextCommandHandler) :
    (((MenuCommandCallback res p).1 = Completion.threw
        ↔ res ResourceId.IDS_COMMAND_CALLBACK = none) ∧
      (res ResourceId.IDS_COMMAND_CALLBACK = none → (MenuCommandCallback res p).2 = p)) ∧
    (((GraphCommandCallback res p).1 = Completion.threw
        ↔ res ResourceId.IDS_GRAPH_CALLBACK = none) ∧
      (res ResourceId.IDS_GRAPH_CALLBACK = none → (GraphCommandCallback res p).2 = p)) ∧
    (((ZoomCommandCallback res p).1 = Completion.threw
        ↔ res ResourceId.IDS_ZOOM_CALLBACK = none) ∧
      (res ResourceId.IDS_ZOOM_CALLBACK = none → (ZoomCommandCallback res p).2 = p)) ∧
    (((h.Exec res).1 = Completion.threw ↔ res ResourceId.IDS_COMMAND_TEXT_FORMAT = none) ∧
      (res ResourceId.IDS_COMMAND_TEXT_FORMAT = none → (h.Exec res).2.text = h.text)) ∧
    (((Entry.cmdidDynamicTxt.exec res p).1 = Completion.threw
        ↔ res ResourceId.IDS_COMMAND_TEXT_FORMAT = none) ∧
      (res ResourceId.IDS_COMMAND_TEXT_FORMAT = none →
        (Entry.cmdidDynamicTxt.exec res p).2.m_OutputWindow = p.m_OutputWindow ∧
        (Entry.cmdidDynamicTxt.exec res p).2.dynamicTxt.text = p.dynamicTxt.text)) := by
  refine ⟨?_, ?_, ?_, ?_, ?_⟩
  · unfold MenuCommandCallback
    cases res ResourceId.IDS_COMMAND_CALLBACK <;> simp
  · unfold GraphCommandCallback
    cases res ResourceId.IDS_GRAPH_CALLBACK <;> simp
  · unfold ZoomCommandCallback
    cases res ResourceId.IDS_ZOOM_CALLBACK <;> simp
  · unfold DynamicTextCommandHandler.Exec
    cases res ResourceId.IDS_COMMAND_TEXT_FORMAT <;> simp
  · simp only [Entry.exec, Entry.binding, DynamicTextCommandHandler.Exec]
    cases res ResourceId.IDS_COMMAND_TEXT_FORMAT <;> simp

/-- With an empty string table each of the four ends in an error and changes neither the
output nor the label. -/
theorem C8_error_iff_load_fails_witness :
    (MenuCommandCallback noResources MenuAndCommandsPackage.new).1 = Completion.threw ∧
      (MenuCommandCallback noResources MenuAndCommandsPackage.new).2
        = MenuAndCommandsPackage.new ∧
      (GraphCommandCallback noResources MenuAndCommandsPackage.new).2
        = MenuAndCommandsPackage.new ∧
      (ZoomCommandCallback noResources MenuAndCommandsPackage.new).2
        = MenuAndCommandsPackage.new ∧
      ((DynamicTextCommandHandler.new "C++ Text Changes").Exec noResources).2.text
        = (DynamicTextCommandHandler.new "C++ Text Changes").text ∧
      (Entry.cmdidDynamicTxt.exec noResources MenuAndCommandsPackage.new).2.m_OutputWindow
        = MenuAndCommandsPackage.new.m_OutputWindow :=
  ⟨(C8_error_iff_load_fails noResources MenuAndCommandsPackage.new
      (DynamicTextCommandHandler.new "C++ Text Changes")).1.1.2 rfl,
    (C8_error_iff_load_fails noResources MenuAndCommandsPackage.new
      (DynamicTextCommandHandler.new "C++ Text Changes")).1.2 rfl,
    (C8_error_iff_load_fails noResources MenuAndCommandsPackage.new
      (DynamicTextCommandHandler.new "C++ Text Changes")).2.1.2 rfl,
    (C8_error_iff_load_fails noResources MenuAndCommandsPackage.new
      (DynamicTextCommandHandler.new "C++ Text Changes")).2.2.1.2 rfl,
    (C8_error_iff_load_fails noResources MenuAndCommandsPackage.new
      (DynamicTextCommandHandler.new "C++ Text Changes")).2.2.2.1.2 rfl,
    ((C8_error_iff_load_fails noResources MenuAndCommandsPackage.new
      (DynamicTextCommandHandler.new "C++ Text Changes")).2.2.2.2.2 rfl).1⟩

/-- C7, as the code has it: each of the three static-text callbacks (`MenuCommandCallback`,
`GraphCommandCallback`, `ZoomCommandCallback`, the handlers of the entries `cmdidMyCommand`,
`cmdidMyGraph`, `cmdidMyZoom`), when its resource load succeeds, returns normally, appends
to the output exactly one message between two bars, the message being its own resource
string (`IDS_COMMAND_CALLBACK`, `IDS_GRAPH_CALLBACK`, `IDS_ZOOM_CALLBACK`), and changes
nothing else: the dynamic-text handler and the status flags of all commands stay as they
were. The fourth default entry, `cmdidDynVisibility1`, is bound to
`MenuVisibilityCallback` and is not among them. -/
theorem C7_static_text_callbacks (res : Resources) (p : MenuAndCommandsPackage)
    (strMessage : String) :
    (Entry.cmdidMyCommand.exec res p = MenuCommandCallback res p ∧
      (res ResourceId.IDS_COMMAND_CALLBACK = some strMessage →
        (MenuCommandCallback res p).1 = Completion.returned ∧
        (MenuCommandCallback res p).2.m_OutputWindow = p.m_OutputWindow ++
          [OutputItem.barOfEquals, OutputItem.message strMessage, OutputItem.barOfEquals] ∧
        (MenuCommandCallback res p).2.dynamicTxt = p.dynamicTxt ∧
        (MenuCommandCallback res p).2.statusFlags = p.statusFlags ∧
        (MenuCommandCallback res p).2 = { p with m_OutputWindow := p.m_OutputWindow ++
          [OutputItem.barOfEquals, OutputItem.message strMessage, OutputItem.barOfEquals] })) ∧
    (Entry.cmdidMyGraph.exec res p = GraphCommandCallback res p ∧
      (res ResourceId.IDS_GRAPH_CALLBACK = some strMessage →
        (GraphCommandCallback res p).1 = Completion.returned ∧
        (GraphCommandCallback res p).2.m_OutputWindow = p.m_OutputWindow ++
          [OutputItem.barOfEquals, OutputItem.message strMessage, OutputItem.barOfEquals] ∧
        (GraphCommandCallback res p).2.dynamicTxt = p.dynamicTxt ∧
        (GraphCommandCallback res p).2.statusFlags = p.statusFlags ∧
        (GraphCommandCallback res p).2 = { p with m_OutputWindow := p.m_OutputWindow ++
          [OutputItem.barOfEquals, OutputItem.message strMessage, OutputItem.barOfEquals] })) ∧
    (Entry.cmdidMyZoom.exec res p = ZoomCommandCallback res p ∧
      (res ResourceId.IDS_ZOOM_CALLBACK = some strMessage →
        (ZoomCommandCallback res p).1 = Completion.returned ∧
        (ZoomCommandCallback res p).2.m_OutputWindow = p.m_OutputWindow ++
          [OutputItem.barOfEquals, OutputItem.message strMessage, OutputItem.barOfEquals] ∧
        (ZoomCommandCallback res p).2.dynamicTxt = p.dynamicTxt ∧
        (ZoomCommandCallback res p).2.statusFlags = p.statusFlags ∧
        (ZoomCommandCallback res p).2 = { p with m_OutputWindow := p.m_OutputWindow ++
          [OutputItem.barOfEquals, OutputItem.message strMessage, OutputItem.barOfEquals] })) := by
  refine ⟨⟨rfl, fun hres => ?_⟩, ⟨rfl, fun hres => ?_⟩, ⟨rfl, fun hres => ?_⟩⟩
  · unfold MenuCommandCallback
    rw [hres]
    exact ⟨rfl, rfl, rfl, rfl, rfl⟩
  · unfold GraphCommandCallback
    rw [hres]
    exact ⟨rfl, rfl, rfl, rfl, rfl⟩
  · unfold ZoomCommandCallback
    rw [hres]
    exact ⟨rfl, rfl, rfl, rfl, rfl⟩

/-- On the constructed package, `MenuCommandCallback` writes its message between two bars
and nothing else. -/
theorem C7_static_text_callbacks_witness :
    (MenuCommandCallback sampleResources MenuAndCommandsPackage.new).1 = Completion.returned ∧
      (MenuCommandCallback sampleResources MenuAndCommandsPackage.new).2.m_OutputWindow
        = MenuAndCommandsPackage.new.m_OutputWindow ++
          [OutputItem.barOfEquals, OutputItem.message "Sample Command Callback.",
            OutputItem.barOfEquals] ∧
      (MenuCommandCallback sampleResources MenuAndCommandsPackage.new).2.dynamicTxt
        = MenuAndCommandsPackage.new.dynamicTxt ∧
      (MenuCommandCallback sampleResources MenuAndCommandsPackage.new).2.statusFlags
        = MenuAndCommandsPackage.new.statusFlags ∧
      (MenuCommandCallback sampleResources MenuAndCommandsPackage.new).2
        = { MenuAndCommandsPackage.new with
            m_OutputWindow := MenuAndCommandsPackage.new.m_OutputWindow ++
              [OutputItem.barOfEquals, OutputItem.message "Sample Command Callback.",
                OutputItem.barOfEquals] } :=
  (C7_static_text_callbacks sampleResources MenuAndCommandsPackage.new
    "Sample Command Callback.").1.2 rfl

/-- C7 fails for the fourth default entry of the command map: `cmdidDynVisibility1` is bound
to `MenuVisibilityCallback`; executing it on the constructed package, with every resource
loadable, writes nothing to the output and changes the status flags of two commands. -/
theorem C7_counterexample :
    Entry.cmdidDynVisibility1.binding = Binding.callback ExecHandler.MenuVisibilityCallback ∧
      ExecHandler.MenuVisibilityCallback.resource = none ∧
      (Entry.cmdidDynVisibility1.exec sampleResources MenuAndCommandsPackage.new).1
        = Completion.returned ∧
      (Entry.cmdidDynVisibility1.exec sampleResources
        MenuAndCommandsPackage.new).2.m_OutputWindow = [] ∧
      MenuAndCommandsPackage.new.statusFlags = [3, 3, 3, 3, 19, 3] ∧
      (Entry.cmdidDynVisibility1.exec sampleResources
        MenuAndCommandsPackage.new).2.statusFlags = [3, 3, 3, 17, 1, 3] ∧
      (Entry.cmdidDynVisibility1.exec sampleResources MenuAndCommandsPackage.new).2.statusFlags
        ≠ MenuAndCommandsPackage.new.statusFlags := by
  decide

/-! ## The visibility-toggle pair -/

theorem and_two_pow_cases (f i : Nat) : f &&& 2 ^ i = 0 ∨ f &&& 2 ^ i = 2 ^ i := by
  cases hb : f.testBit i with
  | false =>
    left
    apply Nat.eq_of_testBit_eq
    intro j
    by_cases hij : i = j
    · subst hij; simp [hb]
    · simp [Nat.testBit_two_pow, hij]
  | true =>
    right
    apply Nat.eq_of_testBit_eq
    intro j
    by_cases hij : i = j
    · subst hij; simp [hb]
    · simp [Nat.testBit_two_pow, hij]

/-- Inverting the bit pair inverts visibility. -/
theorem isVisible_flip (flags : Nat) :
    isVisible (flipVisibleEnabled flags) = !isVisible flags := by
  unfold isVisible flipVisibleEnabled
  rw [Nat.and_xor_distrib_right]
  rcases and_two_pow_cases flags 4 with h | h
  · have h1 : flags &&& OLECMDF_INVISIBLE = 0 := h
    rw [h1]; decide
  · have h1 : flags &&& OLECMDF_INVISIBLE = 16 := h
    rw [h1]; decide

theorem runVisibility_concat (senders : List Entry) (s : Entry) (p : MenuAndCommandsPackage) :
    runVisibility (senders ++ [s]) p = (MenuVisibilityCallback s (runVisibility senders p)).2 := by
  simp [runVisibility, List.foldl_append]

/-- The flags of the pair after a sequence of invocations: inverted when the number of
invocations is odd, as they were when it is even. -/
theorem runVisibility_flags (senders : List Entry) (p : MenuAndCommandsPackage) :
    (runVisibility senders p).dynVisibility1.flags
        = (if senders.length % 2 = 0 then p.dynVisibility1.flags
            else flipVisibleEnabled p.dynVisibility1.flags) ∧
      (runVisibility senders p).dynVisibility2.flags
        = (if senders.length % 2 = 0 then p.dynVisibility2.flags
            else flipVisibleEnabled p.dynVisibility2.flags) := by
  induction senders using List.reverseRecOn with
  | nil => exact ⟨rfl, rfl⟩
  | append_singleton ss s ih =>
    rw [runVisibility_concat]
    simp only [MenuVisibilityCallback, ih.1, ih.2, List.length_append, List.length_singleton]
    have hxx : ∀ f : Nat, flipVisibleEnabled (flipVisibleEnabled f) = f := by
      intro f
      simp [flipVisibleEnabled, Nat.xor_assoc]
    rcases Nat.mod_two_eq_zero_or_one ss.length with h | h
    · have h2 : (ss.length + 1) % 2 = 1 := by omega
      simp [h, h2]
    · have h2 : (ss.length + 1) % 2 = 0 := by omega
      simp [h, h2, hxx]

/-- C4: in the command map `cmdidDynVisibility1` starts visible and `cmdidDynVisibility2`
invisible; both entries run the shared `MenuVisibilityCallback`; every invocation, through
whichever entry, inverts the visibility of both; so after every finite sequence of
invocations (the empty one included) exactly one of the two is visible. -/
theorem C4_visibility_pair (res : Resources) (p : MenuAndCommandsPackage) (pSender : Entry)
    (senders : List Entry) :
    (isVisible MenuAndCommandsPackage.new.dynVisibility1.flags = true ∧
      isVisible MenuAndCommandsPackage.new.dynVisibility2.flags = false) ∧
    (Entry.cmdidDynVisibility1.exec res p = MenuVisibilityCallback Entry.cmdidDynVisibility1 p ∧
      Entry.cmdidDynVisibility2.exec res p
        = MenuVisibilityCallback Entry.cmdidDynVisibility2 p) ∧
    ((MenuVisibilityCallback pSender p).1 = Completion.returned ∧
      isVisible (MenuVisibilityCallback pSender p).2.dynVisibility1.flags
        = !isVisible p.dynVisibility1.flags ∧
      isVisible (MenuVisibilityCallback pSender p).2.dynVisibility2.flags
        = !isVisible p.dynVisibility2.flags) ∧
    (isVisible (runVisibility senders MenuAndCommandsPackage.new).dynVisibility1.flags
        ≠ isVisible (runVisibility senders MenuAndCommandsPackage.new).dynVisibility2.flags) := by
  refine ⟨⟨by decide, by decide⟩, ⟨rfl, rfl⟩, ⟨rfl, isVisible_flip _, isVisible_flip _⟩, ?_⟩
  have h := runVisibility_flags senders MenuAndCommandsPackage.new
  rw [h.1, h.2]
  by_cases hlen : senders.length % 2 = 0
  · rw [if_pos hlen, if_pos hlen]; decide
  · rw [if_neg hlen, if_neg hlen]; decide

theorem registeredIds_eq (k : CommandIds) :
    registeredIds k
      = k.numbers.map (fun n => ({ guid := k.CLSID_MenuAndCommandsCmdSet, id := n } : CommandId)) :=
  rfl

theorem findCommand_isSome_iff (k : CommandIds) (cid : CommandId) :
    (findCommand k cid).isSome = true ↔ cid ∈ registeredIds k := by
  unfold findCommand registeredIds
  rw [List.lookup_isSome_iff]
  simp only [beq_iff_eq, List.mem_map]
  constructor
  · rintro ⟨x, hx, rfl⟩
    exact ⟨x, hx, rfl⟩
  · rintro ⟨x, hx, rfl⟩
    exact ⟨x, hx, rfl⟩

/-- C5: for every string table, package state and command identifier that has no entry in
the command map, the lookup finds no handler, `Exec` answers "not supported" and returns
the package unchanged (no callback has run), and `QueryStatus` answers "not supported"
with no flags. -/
theorem C5_unregistered_not_supported (k : CommandIds) (res : Resources) (cid : CommandId)
    (p : MenuAndCommandsPackage) (hcid : cid ∉ registeredIds k) :
    findCommand k cid = none ∧
      p.Exec k res cid = (HRESULT.OLECMDERR_E_NOTSUPPORTED, p) ∧
      p.QueryStatus k cid = (HRESULT.OLECMDERR_E_NOTSUPPORTED, none) := by
  have hnone : findCommand k cid = none := by
    cases hf : findCommand k cid with
    | none => rfl
    | some e =>
      exact absurd ((findCommand_isSome_iff k cid).1 (by rw [hf]; rfl)) hcid
  refine ⟨hnone, ?_, ?_⟩
  · unfold MenuAndCommandsPackage.Exec
    rw [hnone]
  · unfold MenuAndCommandsPackage.QueryStatus
    rw [hnone]

/-- An identifier of another command set is not supported, and the constructed package
stays as it is. -/
theorem C5_unregistered_not_supported_witness :
    findCommand exampleIds { guid := 2, id := 1 } = none ∧
      MenuAndCommandsPackage.new.Exec exampleIds sampleResources { guid := 2, id := 1 }
        = (HRESULT.OLECMDERR_E_NOTSUPPORTED, MenuAndCommandsPackage.new) ∧
      MenuAndCommandsPackage.new.QueryStatus exampleIds { guid := 2, id := 1 }
        = (HRESULT.OLECMDERR_E_NOTSUPPORTED, none) :=
  C5_unregistered_not_supported exampleIds sampleResources { guid := 2, id := 1 }
    MenuAndCommandsPackage.new (by decide)

/-- C6, as the command map has it: when the six command numbers are pairwise different,
dispatch finds a handler for exactly the identifiers of the command map, which are six;
three of them are bound to the callbacks that write a fixed resource string
(`MenuCommandCallback`, `GraphCommandCallback`, `ZoomCommandCallback`), two to
`MenuVisibilityCallback`, and one to `DynamicTextCommandHandler`. -/
theorem C6_six_commands (k : CommandIds) (hk : k.Distinct) :
    (∀ cid : CommandId, (findCommand k cid).isSome = true ↔ cid ∈ (registeredIds k).toFinset) ∧
      (registeredIds k).toFinset.card = 6 ∧
      (commandMap k).map (fun x => x.2.binding)
        = [Binding.callback ExecHandler.MenuCommandCallback,
            Binding.callback ExecHandler.GraphCommandCallback,
            Binding.callback ExecHandler.ZoomCommandCallback,
            Binding.callback ExecHandler.MenuVisibilityCallback,
            Binding.callback ExecHandler.MenuVisibilityCallback,
            Binding.DynamicTextCommandHandler] ∧
      (staticTextEntries k).length = 3 ∧
      (entriesBoundTo k (Binding.callback ExecHandler.MenuVisibilityCallback)).length = 2 ∧
      (entriesBoundTo k Binding.DynamicTextCommandHandler).length = 1 := by
  refine ⟨fun cid => ?_, ?_, rfl, rfl, rfl, rfl⟩
  · rw [List.mem_toFinset]
    exact findCommand_isSome_iff k cid
  · have hnodup : (registeredIds k).Nodup := by
      rw [registeredIds_eq]
      refine List.Nodup.map ?_ hk
      intro a b hab
      exact congrArg CommandId.id hab
    rw [List.toFinset_card_of_nodup hnodup]
    rfl

/-- With the example constants the command map has six identifiers. -/
theorem C6_six_commands_witness :
    exampleIds.Distinct ∧ (registeredIds exampleIds).toFinset.card = 6 ∧
      (staticTextEntries exampleIds).length = 3 :=
  ⟨by decide, (C6_six_commands exampleIds (by decide)).2.1,
    (C6_six_commands exampleIds (by decide)).2.2.2.1⟩

/-- C6 fails: with pairwise different command numbers the command map has six identifiers
for which dispatch finds a handler, not five, and three of them, not four, are bound to a
callback that writes a fixed resource string. -/
theorem C6_counterexample :
    exampleIds.Distinct ∧
      ((registeredIds exampleIds).filter
        (fun cid => (findCommand exampleIds cid).isSome)).toFinset.card = 6 ∧
      (registeredIds exampleIds).toFinset.card ≠ 5 ∧
      (staticTextEntries exampleIds).length = 3 ∧
      (staticTextEntries exampleIds).length ≠ 4 := by
  decide

end MenuAndCommands
